import Mathlib

/-!
# Starry Geo dashboard (`src/app/page.jsx`): validator and orchestrator

A shallow embedding of the client-side logic of `src/app/page.jsx`:

* the IP address validator `isValidIpAddress` (two anchored regular expressions),
* the component state of `Page` together with the browser storage slot and a log of the
  requests handed to `apiRequest`,
* the handlers (`handleLogin`, `handleSearch`, `handleLogout`, `handleBulkDeleteHistory`,
  `toggleHistorySelection`) and the bootstrap effect.

Strings are sequences of characters; both regular expressions only accept ASCII characters,
so the difference between UTF-16 code units and Unicode scalar values is immaterial for them.
The outcome of a call of `apiRequest` is an argument of the handler that makes it: the
parsed body in the success shape of its endpoint, or the value thrown.
-/

namespace GeoDashboard

/-! ## Regular expressions -/

/-- The regular-expression constructs that occur in `isValidIpAddress`:
a literal character, a character class given by its ranges (`\d` is `[0-9]`),
concatenation, alternation `|`, the optional `?` and bounded repetition `{lo,hi}`
(`{n}` is `{n,n}`). -/
inductive Re where
  | chr (c : Char)
  | cls (ranges : List (Char × Char))
  | seq (r t : Re)
  | alt (r t : Re)
  | opt (r : Re)
  | rep (lo hi : Nat) (r : Re)
  deriving Inhabited

/-- Membership of a character in a class `[a-b...]`: some range contains its code. -/
def inClass (ranges : List (Char × Char)) (c : Char) : Bool :=
  ranges.any fun p => decide (p.1.toNat ≤ c.toNat) && decide (c.toNat ≤ p.2.toNat)

/-- At most `k` further iterations of `f` (greedy: one more iteration is tried first). -/
def repUpTo (f : List Char → List (List Char)) : Nat → List Char → List (List Char)
  | 0, s => [s]
  | k + 1, s => (f s).flatMap (repUpTo f k) ++ [s]

/-- Exactly `n` iterations of `f`, followed by at most `extra` further ones. -/
def repMatch (f : List Char → List (List Char)) (extra : Nat) :
    Nat → List Char → List (List Char)
  | 0, s => repUpTo f extra s
  | n + 1, s => (f s).flatMap (repMatch f extra n)

/-- Backtracking matcher: every way of matching a prefix of the input with `r`, given by
the rest of the input that is left over, in the order in which a backtracking engine
tries them. -/
def matchRe : Re → List Char → List (List Char)
  | .chr c, s =>
    match s with
    | [] => []
    | x :: xs => if x = c then [xs] else []
  | .cls ranges, s =>
    match s with
    | [] => []
    | x :: xs => if inClass ranges x then [xs] else []
  | .seq r t, s => (matchRe r s).flatMap (matchRe t)
  | .alt r t, s => matchRe r s ++ matchRe t s
  | .opt r, s => matchRe r s ++ [s]
  | .rep lo hi r, s => repMatch (matchRe r) (hi - lo) lo s

/-- The value of `/^r$/.test(s)`: some way of matching consumes the whole input. -/
def Re.test (r : Re) (s : List Char) : Bool :=
  (matchRe r s).any List.isEmpty

/-! ## `isValidIpAddress` -/

/-- The class `\d`. -/
def digit : Re := .cls [('0', '9')]

/-- The octet pattern `25[0-5]|2[0-4]\d|1\d\d|[1-9]?\d`. -/
def octetRe : Re :=
  .alt (.seq (.chr '2') (.seq (.chr '5') (.cls [('0', '5')])))
    (.alt (.seq (.chr '2') (.seq (.cls [('0', '4')]) digit))
      (.alt (.seq (.chr '1') (.seq digit digit))
        (.seq (.opt (.cls [('1', '9')])) digit)))

/-- The pattern `ipv4` between its anchors: `(octet)(\.(octet)){3}`. -/
def ipv4 : Re :=
  .seq octetRe (.rep 3 3 (.seq (.chr '.') octetRe))

/-- The group pattern `[0-9a-fA-F]{1,4}`. -/
def hexGroup : Re := .rep 1 4 (.cls [('0', '9'), ('a', 'f'), ('A', 'F')])

/-- The group followed by a colon, `[0-9a-fA-F]{1,4}:`. -/
def hexGroupColon : Re := .seq hexGroup (.chr ':')

/-- The pattern `ipv6` between its anchors, with its five alternatives:
`(g:){7}g | ::1 | :: | (g:){1,7}: | :(g:){1,7}` where `g` is `[0-9a-fA-F]{1,4}`. -/
def ipv6 : Re :=
  .alt (.seq (.rep 7 7 hexGroupColon) hexGroup)
    (.alt (.seq (.chr ':') (.seq (.chr ':') (.chr '1')))
      (.alt (.seq (.chr ':') (.chr ':'))
        (.alt (.seq (.rep 1 7 hexGroupColon) (.chr ':'))
          (.seq (.chr ':') (.rep 1 7 hexGroupColon)))))

/-- The function `isValidIpAddress(ip)`: `ipv4.test(ip) || ipv6.test(ip)`. -/
def isValidIpAddress (ip : String) : Bool :=
  ipv4.test ip.data || ipv6.test ip.data

/-! ## Denotation of the regular expressions -/

/-- The words obtained by concatenating exactly `n` words satisfying `P`. -/
def Pow (P : List Char → Prop) : Nat → List Char → Prop
  | 0, w => w = []
  | n + 1, w => ∃ u v, P u ∧ Pow P n v ∧ w = u ++ v

/-- The language of a regular expression: the words it matches as a whole. -/
def Re.Matches : Re → List Char → Prop
  | .chr c, w => w = [c]
  | .cls ranges, w => ∃ x, inClass ranges x = true ∧ w = [x]
  | .seq r t, w => ∃ u v, r.Matches u ∧ t.Matches v ∧ w = u ++ v
  | .alt r t, w => r.Matches w ∨ t.Matches w
  | .opt r, w => r.Matches w ∨ w = []
  | .rep lo hi r, w => ∃ k, k ≤ hi - lo ∧ Pow r.Matches (lo + k) w

/-! ## Alphabets -/

/-- Every character the expression can consume satisfies `P`. -/
def Re.Over (P : Char → Prop) : Re → Prop
  | .chr c => P c
  | .cls ranges => ∀ x, inClass ranges x = true → P x
  | .seq r t => r.Over P ∧ t.Over P
  | .alt r t => r.Over P ∧ t.Over P
  | .opt r => r.Over P
  | .rep _ _ r => r.Over P

/-! ## Dotted decimal strings -/

/-- A non-empty string of decimal digits. -/
def isDigitStr (a : List Char) : Bool :=
  !a.isEmpty && a.all Char.isDigit

/-- The number a string of decimal digits denotes. -/
def decValue (a : List Char) : Nat :=
  a.foldl (fun acc c => 10 * acc + (c.toNat - '0'.toNat)) 0

/-- An octet in the sense of the specification: a number in `0..255` written without a
leading zero (the single digit `0` is the way to write zero). -/
def octetOk (a : List Char) : Bool :=
  decide (decValue a ≤ 255) && (a.length == 1 || a.head? != some '0')

/-- The string `a.b.c.d`. -/
def dotted (a b c d : List Char) : String :=
  String.mk (a ++ '.' :: (b ++ '.' :: (c ++ '.' :: d)))

/-! ## Specification-side address syntax -/

/-- The pieces of a word between the occurrences of a separator. -/
def splitOnChar (sep : Char) : List Char → List (List Char)
  | [] => [[]]
  | x :: xs =>
    if x = sep then [] :: splitOnChar sep xs
    else
      match splitOnChar sep xs with
      | [] => [[x]]
      | g :: gs => (x :: g) :: gs

/-- A hexadecimal digit. -/
def isHexChar (c : Char) : Bool :=
  c.isDigit || (decide ('a'.toNat ≤ c.toNat) && decide (c.toNat ≤ 'f'.toNat)) ||
    (decide ('A'.toNat ≤ c.toNat) && decide (c.toNat ≤ 'F'.toNat))

/-- A group of an IPv6 address: one to four hexadecimal digits. -/
def isHexGroup (g : List Char) : Bool :=
  decide (1 ≤ g.length) && decide (g.length ≤ 4) && g.all isHexChar

/-- The number of groups of a colon-separated list of groups; the empty word has no group,
and a word with an ill-formed group has no value. -/
def groupCount (s : List Char) : Option Nat :=
  if s.isEmpty then some 0
  else if (splitOnChar ':' s).all isHexGroup then some (splitOnChar ':' s).length
  else none

/-- The specification's IPv4 syntax: four dot-separated decimal octets, each `0..255`. -/
def specIPv4 (s : List Char) : Bool :=
  (splitOnChar '.' s).length == 4 &&
    (splitOnChar '.' s).all fun a => isDigitStr a && decide (decValue a ≤ 255)

/-- The specification's full IPv6 form: eight colon-separated groups. -/
def specIPv6Full (s : List Char) : Bool :=
  groupCount s == some 8

/-- The specification's compressed IPv6 form: one `::` with well-formed groups on either
side (possibly none), standing for at least one omitted group. -/
def specIPv6Compressed (s : List Char) : Bool :=
  (List.range (s.length + 1)).any fun i =>
    ((s.drop i).take 2 == [':', ':']) &&
      match groupCount (s.take i), groupCount (s.drop (i + 2)) with
      | some m, some n => decide (m + n ≤ 7)
      | _, _ => false

/-- The specification's notion of a syntactically valid IPv4 or IPv6 address. -/
def specValidIp (s : String) : Bool :=
  specIPv4 s.data || specIPv6Full s.data || specIPv6Compressed s.data

/-! ## Data model of `Page` -/

/-- The user object returned by `/login` and `/me`. -/
structure User where
  email : String
  deriving DecidableEq, Repr

/-- A geolocation record; every field but `ip` is optional. -/
structure GeoRecord where
  ip : String
  city : Option String
  region : Option String
  country : Option String
  loc : Option String
  org : Option String
  postal : Option String
  timezone : Option String
  deriving DecidableEq, Repr

/-- An entry of the lookup history. -/
structure HistoryEntry where
  id : Nat
  ip : String
  payload : GeoRecord
  created_at : String
  deriving DecidableEq, Repr

/-- The `type` of a toast. -/
inductive ToastType where
  | success
  | error
  deriving DecidableEq, Repr

/-- The value held by the `toast` state. -/
structure Toast where
  message : String
  type : ToastType
  deriving DecidableEq, Repr

/-- The endpoints `apiRequest` is called with. The `/geo` endpoint carries the address put
in its `?ip=` query (passed through `encodeURIComponent` in the source), if any. -/
inductive Endpoint where
  | login
  | logout
  | me
  | geo (ip : Option String)
  | history
  deriving DecidableEq, Repr

/-- The HTTP methods in use. -/
inductive Method where
  | GET
  | POST
  | DELETE
  deriving DecidableEq, Repr

/-- The request bodies in use, before `JSON.stringify`. -/
inductive RequestBody where
  | credentials (email password : String)
  | ids (ids : List Nat)
  deriving DecidableEq, Repr

/-- One call of `apiRequest(endpoint, options, token)`. -/
structure Request where
  endpoint : Endpoint
  method : Method
  body : Option RequestBody
  token : Option String
  deriving DecidableEq, Repr

/-- A value caught by a `catch` clause: an `Error` with its message, or anything else. -/
inductive Thrown where
  | error (message : String)
  | other
  deriving DecidableEq, Repr

/-- How a call of `apiRequest` settles: it resolves with the parsed body or rejects. -/
abbrev Outcome (α : Type) := Except Thrown α

/-- Success shape of `POST /login`. -/
structure LoginResponse where
  token : String
  user : User
  deriving DecidableEq, Repr

/-- Success shape of `GET /me`. -/
structure MeResponse where
  user : User
  deriving DecidableEq, Repr

/-- Success shape of `GET /geo`. -/
structure GeoResponse where
  data : GeoRecord
  deriving DecidableEq, Repr

/-- Success shape of `GET /history`. -/
structure HistoryResponse where
  history : List HistoryEntry
  deriving DecidableEq, Repr

/-- The state of the `Page` component (its `useState` cells), the item stored under
`TOKEN_KEY` in `localStorage`, and the calls of `apiRequest` made so far, oldest first. -/
structure App where
  token : Option String
  isBooting : Bool
  isBusy : Bool
  toast : Option Toast
  email : String
  password : String
  user : Option User
  geo : Option GeoRecord
  searchIp : String
  history : List HistoryEntry
  selectedHistoryIds : List Nat
  stored : Option String
  sent : List Request
  deriving DecidableEq, Repr

/-- The state at mount, with the given content of the storage slot. -/
def initialApp (stored : Option String) : App :=
  { token := none, isBooting := true, isBusy := false, toast := none,
    email := "exam.user@example.com", password := "Password123!",
    user := none, geo := none, searchIp := "", history := [], selectedHistoryIds := [],
    stored := stored, sent := [] }

/-- Truthiness of a value that is `null` or a string: the empty string is falsy. -/
def truthy (v : Option String) : Bool :=
  match v with
  | none => false
  | some t => t != ""

/-- The dashboard is rendered: the guard `!token || !user` of the login view fails. -/
def authenticated (s : App) : Bool :=
  truthy s.token && s.user.isSome

/-- White space and line terminators, the characters `String.prototype.trim` strips. -/
def isJsSpace (c : Char) : Bool :=
  let n := c.toNat
  n == 0x09 || n == 0x0A || n == 0x0B || n == 0x0C || n == 0x0D || n == 0x20 || n == 0xA0 ||
    n == 0x1680 || (decide (0x2000 ≤ n) && decide (n ≤ 0x200A)) || n == 0x2028 ||
    n == 0x2029 || n == 0x202F || n == 0x205F || n == 0x3000 || n == 0xFEFF

/-- The method `trim()`. -/
def jsTrim (s : String) : String :=
  String.mk ((s.data.dropWhile isJsSpace).reverse.dropWhile isJsSpace).reverse

/-- The message shown for a caught value:
`caughtError instanceof Error ? caughtError.message : fallback`. -/
def caughtMessage (e : Thrown) (fallback : String) : String :=
  match e with
  | .error message => message
  | .other => fallback

/-- The function `showToast(message, type = "error")`. -/
def showToast (message : String) (type : ToastType) (s : App) : App :=
  { s with toast := some { message := message, type := type } }

/-- Record a call of `apiRequest`. -/
def send (r : Request) (s : App) : App :=
  { s with sent := s.sent ++ [r] }

/-- The request of `loadGeo(currentToken, ip)`; the query is added when `ip` is truthy. -/
def geoRequest (currentToken : Option String) (ip : Option String) : Request :=
  { endpoint := .geo (if truthy ip then ip else none), method := .GET, body := none,
    token := currentToken }

/-- The request of `loadHistory(currentToken)`. -/
def historyRequest (currentToken : Option String) : Request :=
  { endpoint := .history, method := .GET, body := none, token := currentToken }

/-- The function `loadGeo(currentToken, ip)`, given how its request settles; the second
component is the rejection, if any. -/
def loadGeo (currentToken : Option String) (ip : Option String) (o : Outcome GeoResponse)
    (s : App) : App × Option Thrown :=
  let s := send (geoRequest currentToken ip) s
  match o with
  | .ok geoResponse => ({ s with geo := some geoResponse.data }, none)
  | .error e => (s, some e)

/-- The function `loadHistory(currentToken)`, given how its request settles. -/
def loadHistory (currentToken : Option String) (o : Outcome HistoryResponse)
    (s : App) : App × Option Thrown :=
  let s := send (historyRequest currentToken) s
  match o with
  | .ok historyResponse => ({ s with history := historyResponse.history }, none)
  | .error e => (s, some e)

/-- The expression `Promise.all([loadGeo(t), loadHistory(t)])`: both requests are issued,
each load that resolves applies its update, and the combined promise rejects with the
rejection that settles first (`geoFirst` tells which of the two that is when both reject).
The state returned is the one reached once both loads have settled. -/
def loadGeoAndHistory (currentToken : Option String) (og : Outcome GeoResponse)
    (oh : Outcome HistoryResponse) (geoFirst : Bool) (s : App) : App × Option Thrown :=
  let s := send (geoRequest currentToken none) s
  let s := send (historyRequest currentToken) s
  let s := match og with
    | .ok geoResponse => { s with geo := some geoResponse.data }
    | .error _ => s
  let s := match oh with
    | .ok historyResponse => { s with history := historyResponse.history }
    | .error _ => s
  match og, oh with
  | .ok _, .ok _ => (s, none)
  | .error e, .ok _ => (s, some e)
  | .ok _, .error e => (s, some e)
  | .error eg, .error eh => (s, some (if geoFirst then eg else eh))

/-! ## The bootstrap effect and the handlers

Each handler is run on its own from the state it is invoked in (the values its closure
captured), with the way each of its requests settles given as an argument. -/

/-- The mount effect: validate the stored token, then load geolocation and history. -/
def bootstrap (me : Outcome MeResponse) (og : Outcome GeoResponse)
    (oh : Outcome HistoryResponse) (geoFirst : Bool) (s : App) : App :=
  if !truthy s.stored then { s with isBooting := false }
  else
    let storedToken := s.stored
    let s := send { endpoint := .me, method := .GET, body := none, token := storedToken } s
    match me with
    | .error _ => { s with stored := none, isBooting := false }
    | .ok meResponse =>
      let s := { s with token := storedToken, user := some meResponse.user }
      match loadGeoAndHistory storedToken og oh geoFirst s with
      | (s, some _) => { s with stored := none, isBooting := false }
      | (s, none) => { s with isBooting := false }

/-- The handler `handleLogin`. -/
def handleLogin (ol : Outcome LoginResponse) (og : Outcome GeoResponse)
    (oh : Outcome HistoryResponse) (geoFirst : Bool) (s : App) : App :=
  let s := { s with toast := none, isBusy := true }
  let s := send { endpoint := .login, method := .POST,
                  body := some (.credentials s.email s.password), token := none } s
  match ol with
  | .error caughtError =>
    { showToast (caughtMessage caughtError "Login failed.") .error s with isBusy := false }
  | .ok loginResponse =>
    let s := { s with stored := some loginResponse.token, token := some loginResponse.token,
                      user := some loginResponse.user, searchIp := "" }
    match loadGeoAndHistory (some loginResponse.token) og oh geoFirst s with
    | (s, some caughtError) =>
      { showToast (caughtMessage caughtError "Login failed.") .error s with isBusy := false }
    | (s, none) => { s with isBusy := false }

/-- The handler `handleSearch`. -/
def handleSearch (og : Outcome GeoResponse) (oh : Outcome HistoryResponse) (s : App) : App :=
  if !truthy s.token then s
  else
    let token := s.token
    let trimmedIp := jsTrim s.searchIp
    if trimmedIp == "" || !isValidIpAddress trimmedIp then
      showToast "Please enter a valid IPv4 or IPv6 address." .error s
    else
      let s := { s with toast := none, isBusy := true }
      match loadGeo token (some trimmedIp) og s with
      | (s, some caughtError) =>
        { showToast (caughtMessage caughtError "Search failed.") .error s with isBusy := false }
      | (s, none) =>
        match loadHistory token oh s with
        | (s, some caughtError) =>
          { showToast (caughtMessage caughtError "Search failed.") .error s with
            isBusy := false }
        | (s, none) => { s with isBusy := false }

/-- The handler `handleLogout`; the way the `/logout` request settles is ignored. -/
def handleLogout (_o : Outcome Unit) (s : App) : App :=
  if !truthy s.token then s
  else
    let s := send { endpoint := .logout, method := .POST, body := none, token := s.token } s
    { s with stored := none, token := none, user := none, geo := none, history := [],
             selectedHistoryIds := [], searchIp := "", toast := none }

/-- The handler `handleBulkDeleteHistory`. -/
def handleBulkDeleteHistory (od : Outcome Unit) (oh : Outcome HistoryResponse)
    (s : App) : App :=
  if !truthy s.token || s.selectedHistoryIds.length == 0 then s
  else
    let token := s.token
    let s := { s with isBusy := true, toast := none }
    let s := send { endpoint := .history, method := .DELETE,
                    body := some (.ids s.selectedHistoryIds), token := token } s
    match od with
    | .error caughtError =>
      { showToast (caughtMessage caughtError "Unable to delete history.") .error s with
        isBusy := false }
    | .ok _ =>
      let s := { s with selectedHistoryIds := [] }
      match loadHistory token oh s with
      | (s, some caughtError) =>
        { showToast (caughtMessage caughtError "Unable to delete history.") .error s with
          isBusy := false }
      | (s, none) => { showToast "Selected history deleted." .success s with isBusy := false }

/-- The updater passed to `setSelectedHistoryIds` by `toggleHistorySelection(id)`. -/
def toggleIds (id : Nat) (current : List Nat) : List Nat :=
  if current.contains id then current.filter (fun selectedId => selectedId != id)
  else current ++ [id]

/-- The handler `toggleHistorySelection`. -/
def toggleHistorySelection (id : Nat) (s : App) : App :=
  { s with selectedHistoryIds := toggleIds id s.selectedHistoryIds }

/-! ## The busy gate in the markup -/

/-- The attribute `disabled={isBusy}` of the submit button of the login form. -/
def loginSubmitDisabled (s : App) : Bool :=
  s.isBusy

/-- The attribute `disabled={selectedHistoryIds.length === 0 || isBusy}` of the
"Delete Selected" button. -/
def deleteSelectedDisabled (s : App) : Bool :=
  s.selectedHistoryIds.length == 0 || s.isBusy

/-! ## Sample states -/

/-- An authenticated state with a blank search input. -/
def demoApp : App :=
  { initialApp (some "tok") with
    token := some "tok", isBooting := false, user := some { email := "a@b.c" } }

/-- A geolocation record. -/
def demoGeo : GeoRecord :=
  { ip := "8.8.8.8", city := some "Mountain View", region := none, country := some "US",
    loc := some "37.4,-122.1", org := none, postal := none, timezone := none }

/-- A history entry. -/
def demoEntry : HistoryEntry :=
  { id := 7, ip := "8.8.8.8", payload := demoGeo, created_at := "2024-01-01T00:00:00Z" }

/-- An authenticated state with one history entry, which is selected. -/
def selectedApp : App :=
  { demoApp with history := [demoEntry], selectedHistoryIds := [7] }

/-- The login view after an unsuccessful or absent bootstrap. -/
def loginApp : App :=
  { initialApp none with isBooting := false }

/-- A state of the login view with `isBusy` set. -/
def busyLoginApp : App :=
  { loginApp with isBusy := true }

/-- An authenticated state with a selection and `isBusy` set. -/
def busyDashboardApp : App :=
  { demoApp with history := [demoEntry], selectedHistoryIds := [7], isBusy := true }

/-! ## Theorems: the regular expressions and `isValidIpAddress` -/

theorem mem_repUpTo (f : List Char → List (List Char)) (P : List Char → Prop)
    (hf : ∀ s rest, rest ∈ f s ↔ ∃ pre, P pre ∧ s = pre ++ rest) (extra : Nat) :
    ∀ s rest, rest ∈ repUpTo f extra s ↔ ∃ k, k ≤ extra ∧ ∃ pre, Pow P k pre ∧ s = pre ++ rest := by
  induction extra with
  | zero =>
    intro s rest
    simp only [repUpTo, List.mem_singleton, Nat.le_zero]
    constructor
    · rintro rfl
      exact ⟨0, rfl, [], rfl, rfl⟩
    · rintro ⟨k, rfl, pre, hp, rfl⟩
      simp only [Pow] at hp
      simp [hp]
  | succ n ih =>
    intro s rest
    simp only [repUpTo, List.mem_append, List.mem_flatMap, List.mem_singleton]
    constructor
    · rintro (⟨mid, hmid, hrest⟩ | rfl)
      · obtain ⟨u, hu, rfl⟩ := (hf _ _).1 hmid
        obtain ⟨k, hk, v, hv, rfl⟩ := (ih _ _).1 hrest
        exact ⟨k + 1, by omega, u ++ v, ⟨u, v, hu, hv, rfl⟩, by simp⟩
      · exact ⟨0, by omega, [], rfl, rfl⟩
    · rintro ⟨k, hk, pre, hp, rfl⟩
      cases k with
      | zero =>
        simp only [Pow] at hp
        right
        simp [hp]
      | succ k =>
        obtain ⟨u, v, hu, hv, rfl⟩ := hp
        left
        refine ⟨v ++ rest, (hf _ _).2 ⟨u, hu, by simp⟩, (ih _ _).2 ⟨k, by omega, v, hv, rfl⟩⟩

theorem mem_repMatch (f : List Char → List (List Char)) (P : List Char → Prop)
    (hf : ∀ s rest, rest ∈ f s ↔ ∃ pre, P pre ∧ s = pre ++ rest) (extra n : Nat) :
    ∀ s rest, rest ∈ repMatch f extra n s ↔
      ∃ k, k ≤ extra ∧ ∃ pre, Pow P (n + k) pre ∧ s = pre ++ rest := by
  induction n with
  | zero =>
    intro s rest
    simp only [repMatch, Nat.zero_add]
    exact mem_repUpTo f P hf extra s rest
  | succ n ih =>
    intro s rest
    simp only [repMatch, List.mem_flatMap]
    constructor
    · rintro ⟨mid, hmid, hrest⟩
      obtain ⟨u, hu, rfl⟩ := (hf _ _).1 hmid
      obtain ⟨k, hk, v, hv, rfl⟩ := (ih _ _).1 hrest
      refine ⟨k, hk, u ++ v, ?_, by simp⟩
      have : n + 1 + k = (n + k) + 1 := by omega
      rw [this]
      exact ⟨u, v, hu, hv, rfl⟩
    · rintro ⟨k, hk, pre, hp, rfl⟩
      have : n + 1 + k = (n + k) + 1 := by omega
      rw [this] at hp
      obtain ⟨u, v, hu, hv, rfl⟩ := hp
      exact ⟨v ++ rest, (hf _ _).2 ⟨u, hu, by simp⟩, (ih _ _).2 ⟨k, hk, v, hv, rfl⟩⟩

/-- The matcher is sound and complete for the denotation: the leftovers it returns are
exactly the inputs with a matched prefix removed. -/
theorem mem_matchRe (r : Re) :
    ∀ s rest, rest ∈ matchRe r s ↔ ∃ pre, r.Matches pre ∧ s = pre ++ rest := by
  induction r with
  | chr c =>
    intro s rest
    cases s with
    | nil => simp [matchRe, Re.Matches]
    | cons x xs =>
      simp only [matchRe, Re.Matches]
      constructor
      · intro h
        split at h
        · next hx =>
          simp only [List.mem_singleton] at h
          subst h; subst hx
          exact ⟨[x], rfl, rfl⟩
        · simp at h
      · rintro ⟨pre, rfl, h⟩
        simp only [List.singleton_append, List.cons.injEq] at h
        simp [h.1, h.2]
  | cls ranges =>
    intro s rest
    cases s with
    | nil =>
      simp only [matchRe, Re.Matches, List.not_mem_nil, false_iff]
      rintro ⟨pre, ⟨y, -, rfl⟩, h⟩
      simp at h
    | cons x xs =>
      simp only [matchRe, Re.Matches]
      constructor
      · intro h
        split at h
        · next hx =>
          simp only [List.mem_singleton] at h
          subst h
          exact ⟨[x], ⟨x, hx, rfl⟩, rfl⟩
        · simp at h
      · rintro ⟨pre, ⟨y, hy, rfl⟩, h⟩
        simp only [List.singleton_append, List.cons.injEq] at h
        obtain ⟨rfl, rfl⟩ := h
        simp [hy]
  | seq r t ihr iht =>
    intro s rest
    simp only [matchRe, List.mem_flatMap, Re.Matches]
    constructor
    · rintro ⟨mid, hmid, hrest⟩
      obtain ⟨u, hu, rfl⟩ := (ihr _ _).1 hmid
      obtain ⟨v, hv, rfl⟩ := (iht _ _).1 hrest
      exact ⟨u ++ v, ⟨u, v, hu, hv, rfl⟩, by simp⟩
    · rintro ⟨pre, ⟨u, v, hu, hv, rfl⟩, rfl⟩
      exact ⟨v ++ rest, (ihr _ _).2 ⟨u, hu, by simp⟩, (iht _ _).2 ⟨v, hv, rfl⟩⟩
  | alt r t ihr iht =>
    intro s rest
    simp only [matchRe, List.mem_append, Re.Matches, ihr, iht]
    constructor
    · rintro (⟨pre, h, rfl⟩ | ⟨pre, h, rfl⟩)
      · exact ⟨pre, Or.inl h, rfl⟩
      · exact ⟨pre, Or.inr h, rfl⟩
    · rintro ⟨pre, h | h, rfl⟩
      · exact Or.inl ⟨pre, h, rfl⟩
      · exact Or.inr ⟨pre, h, rfl⟩
  | opt r ihr =>
    intro s rest
    simp only [matchRe, List.mem_append, List.mem_singleton, Re.Matches, ihr]
    constructor
    · rintro (⟨pre, h, rfl⟩ | rfl)
      · exact ⟨pre, Or.inl h, rfl⟩
      · exact ⟨[], Or.inr rfl, rfl⟩
    · rintro ⟨pre, h | rfl, rfl⟩
      · exact Or.inl ⟨pre, h, rfl⟩
      · exact Or.inr rfl
  | rep lo hi r ihr =>
    intro s rest
    simp only [matchRe, Re.Matches]
    rw [mem_repMatch (matchRe r) r.Matches ihr (hi - lo) lo s rest]
    constructor
    · rintro ⟨k, hk, pre, hp, rfl⟩
      exact ⟨pre, ⟨k, hk, hp⟩, rfl⟩
    · rintro ⟨pre, ⟨k, hk, hp⟩, rfl⟩
      exact ⟨k, hk, pre, hp, rfl⟩

/-- The anchored test decides membership in the language. -/
theorem test_iff_matches (r : Re) (s : List Char) : r.test s = true ↔ r.Matches s := by
  simp only [Re.test, List.any_eq_true, List.isEmpty_iff]
  constructor
  · rintro ⟨rest, hrest, rfl⟩
    obtain ⟨pre, hp, rfl⟩ := (mem_matchRe r _ _).1 hrest
    simpa using hp
  · intro h
    exact ⟨[], (mem_matchRe r _ _).2 ⟨s, h, by simp⟩, rfl⟩

theorem pow_over (P : Char → Prop) (M : List Char → Prop)
    (hM : ∀ w, M w → ∀ c ∈ w, P c) (n : Nat) : ∀ w, Pow M n w → ∀ c ∈ w, P c := by
  induction n with
  | zero =>
    intro w hw c hc
    simp only [Pow] at hw
    subst hw
    simp at hc
  | succ n ih =>
    rintro w ⟨u, v, hu, hv, rfl⟩ c hc
    rcases List.mem_append.1 hc with h | h
    · exact hM u hu c h
    · exact ih v hv c h

theorem matches_over (P : Char → Prop) (r : Re) (h : r.Over P) :
    ∀ w, r.Matches w → ∀ c ∈ w, P c := by
  induction r with
  | chr c =>
    intro w hw x hx
    simp only [Re.Matches] at hw
    subst hw
    simp only [List.mem_singleton] at hx
    subst hx
    exact h
  | cls ranges =>
    rintro w ⟨y, hy, rfl⟩ x hx
    simp only [List.mem_singleton] at hx
    subst hx
    exact h _ hy
  | seq r t ihr iht =>
    rintro w ⟨u, v, hu, hv, rfl⟩ x hx
    rcases List.mem_append.1 hx with hx | hx
    · exact ihr h.1 u hu x hx
    · exact iht h.2 v hv x hx
  | alt r t ihr iht =>
    rintro w (hw | hw) x hx
    · exact ihr h.1 w hw x hx
    · exact iht h.2 w hw x hx
  | opt r ihr =>
    rintro w (hw | rfl) x hx
    · exact ihr h w hw x hx
    · simp at hx
  | rep lo hi r ihr =>
    rintro w ⟨k, -, hk⟩ x hx
    exact pow_over P r.Matches (ihr h) _ w hk x hx

theorem inClass_single (lo hi x : Char) :
    inClass [(lo, hi)] x = true ↔ lo.toNat ≤ x.toNat ∧ x.toNat ≤ hi.toNat := by
  simp [inClass]

theorem char_eq_of_toNat (c d : Char) (h : c.toNat = d.toNat) : c = d := by
  rw [← Char.ofNat_toNat c, ← Char.ofNat_toNat d, h]

theorem isDigit_iff (x : Char) : x.isDigit = true ↔ 48 ≤ x.toNat ∧ x.toNat ≤ 57 := by
  simp only [Char.isDigit, Bool.and_eq_true, decide_eq_true_eq, Char.toNat, ge_iff_le]
  rw [UInt32.le_def, UInt32.le_def]
  rfl

theorem octet_over_digits : octetRe.Over (fun c => 48 ≤ c.toNat ∧ c.toNat ≤ 57) := by
  simp only [octetRe, digit, Re.Over, inClass_single]
  simp only [Char.reduceToNat]
  refine ⟨⟨?_, ?_, ?_⟩, ⟨?_, ?_, ?_⟩, ⟨?_, ?_, ?_⟩, ?_, ?_⟩ <;> omega

theorem foldl_dec_ge (l : List Char) : ∀ acc : Nat,
    acc ≤ l.foldl (fun acc c => 10 * acc + (c.toNat - '0'.toNat)) acc := by
  induction l with
  | nil => intro acc; simp
  | cons x xs ih =>
    intro acc
    simp only [List.foldl_cons]
    exact le_trans (by omega) (ih _)

theorem octet_matches_one (x : Char) (hx : 48 ≤ x.toNat ∧ x.toNat ≤ 57) :
    octetRe.Matches [x] := by
  simp only [octetRe, digit, Re.Matches]
  right; right; right
  exact ⟨[], [x], Or.inr rfl, ⟨x, (inClass_single _ _ _).2 (by simpa using hx), rfl⟩, rfl⟩

theorem octet_matches_two (x y : Char) (hx : 49 ≤ x.toNat ∧ x.toNat ≤ 57)
    (hy : 48 ≤ y.toNat ∧ y.toNat ≤ 57) : octetRe.Matches [x, y] := by
  simp only [octetRe, digit, Re.Matches]
  right; right; right
  exact ⟨[x], [y], Or.inl ⟨x, (inClass_single _ _ _).2 (by simpa using hx), rfl⟩,
    ⟨y, (inClass_single _ _ _).2 (by simpa using hy), rfl⟩, rfl⟩

theorem octet_matches_three (x y z : Char) (hy : 48 ≤ y.toNat ∧ y.toNat ≤ 57)
    (hz : 48 ≤ z.toNat ∧ z.toNat ≤ 57)
    (h : x.toNat = 49 ∨ (x.toNat = 50 ∧ y.toNat ≤ 52) ∨
      (x.toNat = 50 ∧ y.toNat = 53 ∧ z.toNat ≤ 53)) : octetRe.Matches [x, y, z] := by
  simp only [octetRe, digit, Re.Matches]
  rcases h with h | ⟨h1, h2⟩ | ⟨h1, h2, h3⟩
  · have hx : x = '1' := char_eq_of_toNat _ _ (by simpa using h)
    subst hx
    right; right; left
    exact ⟨['1'], [y, z], rfl, ⟨[y], [z], ⟨y, (inClass_single _ _ _).2 (by simpa using hy), rfl⟩,
      ⟨z, (inClass_single _ _ _).2 (by simpa using hz), rfl⟩, rfl⟩, rfl⟩
  · have hx : x = '2' := char_eq_of_toNat _ _ (by simpa using h1)
    subst hx
    right; left
    exact ⟨['2'], [y, z], rfl, ⟨[y], [z],
      ⟨y, (inClass_single _ _ _).2 (by simp only [Char.reduceToNat]; omega), rfl⟩,
      ⟨z, (inClass_single _ _ _).2 (by simpa using hz), rfl⟩, rfl⟩, rfl⟩
  · have hx : x = '2' := char_eq_of_toNat _ _ (by simpa using h1)
    have hy5 : y = '5' := char_eq_of_toNat _ _ (by simpa using h2)
    subst hx; subst hy5
    left
    exact ⟨['2'], ['5', z], rfl, ⟨['5'], [z], rfl,
      ⟨z, (inClass_single _ _ _).2 (by simp only [Char.reduceToNat]; omega), rfl⟩, rfl⟩, rfl⟩

/-- On non-empty digit strings the octet pattern accepts exactly the numbers `0..255`
written without a leading zero. -/
theorem octet_matches_iff (a : List Char) (ha : isDigitStr a = true) :
    octetRe.Matches a ↔ octetOk a = true := by
  simp only [isDigitStr, Bool.and_eq_true, Bool.not_eq_true', List.isEmpty_eq_false,
    List.all_eq_true, isDigit_iff] at ha
  obtain ⟨hne, hd⟩ := ha
  constructor
  · intro h
    simp only [octetRe, digit, Re.Matches, inClass_single, Char.reduceToNat] at h
    rcases h with ⟨u, v, rfl, ⟨p, q, rfl, ⟨z, hz, rfl⟩, rfl⟩, rfl⟩ |
      ⟨u, v, rfl, ⟨p, q, ⟨y, hy, rfl⟩, ⟨z, hz, rfl⟩, rfl⟩, rfl⟩ |
      ⟨u, v, rfl, ⟨p, q, ⟨y, hy, rfl⟩, ⟨z, hz, rfl⟩, rfl⟩, rfl⟩ |
      ⟨u, v, (⟨y, hy, rfl⟩ | rfl), ⟨z, hz, rfl⟩, rfl⟩
    · simp [octetOk, decValue]; omega
    · simp [octetOk, decValue]; omega
    · simp [octetOk, decValue]; omega
    · have hy0 : y ≠ '0' := by
        rintro rfl
        simp at hy
      simp [octetOk, decValue, hy0]; omega
    · simp [octetOk, decValue]; omega
  · intro h
    simp only [octetOk, Bool.and_eq_true, decide_eq_true_eq, Bool.or_eq_true, beq_iff_eq,
      bne_iff_ne, ne_eq] at h
    obtain ⟨hv, hz⟩ := h
    match a, hne, hd, hv, hz with
    | [x], _, hd, _, _ => exact octet_matches_one x (hd x (by simp))
    | [x, y], _, hd, _, hz =>
      have hx := hd x (by simp)
      have hx0 : x.toNat ≠ 48 := by
        intro h0
        have : x = '0' := char_eq_of_toNat _ _ (by simpa using h0)
        subst this
        simp at hz
      exact octet_matches_two x y ⟨by omega, hx.2⟩ (hd y (by simp))
    | [x, y, z], _, hd, hv, hz =>
      have hx := hd x (by simp)
      have hy := hd y (by simp)
      have hz' := hd z (by simp)
      have hx0 : x.toNat ≠ 48 := by
        intro h0
        have : x = '0' := char_eq_of_toNat _ _ (by simpa using h0)
        subst this
        simp at hz
      simp only [decValue, List.foldl_cons, List.foldl_nil, Char.reduceToNat] at hv
      exact octet_matches_three x y z hy hz' (by omega)
    | x :: y :: z :: w :: rest, _, hd, hv, hz =>
      have hx := hd x (by simp)
      have hx0 : x.toNat ≠ 48 := by
        intro h0
        have : x = '0' := char_eq_of_toNat _ _ (by simpa using h0)
        subst this
        simp at hz
      simp only [decValue, List.foldl_cons, Char.reduceToNat] at hv
      have := foldl_dec_ge rest
        (10 * (10 * (10 * (10 * 0 + (x.toNat - 48)) + (y.toNat - 48)) + (z.toNat - 48)) +
          (w.toNat - 48))
      simp only [Char.reduceToNat] at this
      omega

theorem ipv4_matches_iff (w : List Char) :
    ipv4.Matches w ↔ ∃ a b c d, octetRe.Matches a ∧ octetRe.Matches b ∧ octetRe.Matches c ∧
      octetRe.Matches d ∧ w = a ++ '.' :: (b ++ '.' :: (c ++ '.' :: d)) := by
  simp only [ipv4, Re.Matches, Nat.sub_self, Nat.le_zero]
  constructor
  · rintro ⟨a, v, ha, ⟨k, rfl, hp⟩, rfl⟩
    simp only [Nat.add_zero, Pow] at hp
    obtain ⟨_, v1, ⟨_, b, rfl, hb, rfl⟩, ⟨_, v2, ⟨_, c, rfl, hc, rfl⟩,
      ⟨_, v3, ⟨_, d, rfl, hd, rfl⟩, rfl, rfl⟩, rfl⟩, rfl⟩ := hp
    exact ⟨a, b, c, d, ha, hb, hc, hd, by simp⟩
  · rintro ⟨a, b, c, d, ha, hb, hc, hd, rfl⟩
    refine ⟨a, _, ha, ⟨0, rfl, ?_⟩, rfl⟩
    simp only [Nat.add_zero, Pow]
    exact ⟨'.' :: b, _, ⟨['.'], b, rfl, hb, rfl⟩, ⟨'.' :: c, _, ⟨['.'], c, rfl, hc, rfl⟩,
      ⟨'.' :: d, [], ⟨['.'], d, rfl, hd, rfl⟩, rfl, by simp⟩, rfl⟩, rfl⟩

/-- A word is split at its first dot in only one way. -/
theorem append_dot_inj (a : List Char) : ∀ (a' r r' : List Char), '.' ∉ a → '.' ∉ a' →
    a ++ '.' :: r = a' ++ '.' :: r' → a = a' ∧ r = r' := by
  induction a with
  | nil =>
    intro a' r r' _ ha' h
    cases a' with
    | nil => simpa using h
    | cons y ys =>
      simp only [List.nil_append, List.cons_append, List.cons.injEq] at h
      exact absurd (h.1 ▸ List.mem_cons_self _ _) ha'
  | cons x xs ih =>
    intro a' r r' ha ha' h
    cases a' with
    | nil =>
      simp only [List.nil_append, List.cons_append, List.cons.injEq] at h
      exact absurd (h.1 ▸ List.mem_cons_self _ _) ha
    | cons y ys =>
      simp only [List.cons_append, List.cons.injEq] at h
      obtain ⟨rfl, h⟩ := h
      have := ih ys r r' (fun hm => ha (List.mem_cons_of_mem _ hm))
        (fun hm => ha' (List.mem_cons_of_mem _ hm)) h
      exact ⟨by rw [this.1], this.2⟩

theorem dot_not_mem_of_digits (a : List Char) (h : ∀ c ∈ a, 48 ≤ c.toNat ∧ c.toNat ≤ 57) :
    '.' ∉ a := by
  intro hm
  have := h _ hm
  simp at this

theorem digits_of_isDigitStr (a : List Char) (ha : isDigitStr a = true) :
    ∀ c ∈ a, 48 ≤ c.toNat ∧ c.toNat ≤ 57 := by
  simp only [isDigitStr, Bool.and_eq_true, List.all_eq_true, isDigit_iff] at ha
  exact ha.2

theorem ipv6_over_no_dot : ipv6.Over (fun c => c ≠ '.') := by
  have hcls : ∀ x, inClass [('0', '9'), ('a', 'f'), ('A', 'F')] x = true → x ≠ '.' := by
    intro x hx
    rintro rfl
    revert hx
    decide
  simp only [ipv6, hexGroupColon, hexGroup, Re.Over]
  exact ⟨⟨⟨hcls, by decide⟩, hcls⟩, ⟨by decide, by decide, by decide⟩, ⟨by decide, by decide⟩,
    ⟨⟨hcls, by decide⟩, by decide⟩, by decide, hcls, by decide⟩

/-- The IPv6 pattern rejects every word containing a dot. -/
theorem ipv6_test_dot (w : List Char) (h : '.' ∈ w) : ipv6.test w = false := by
  rw [Bool.eq_false_iff]
  intro ht
  exact matches_over _ ipv6 ipv6_over_no_dot w ((test_iff_matches _ _).1 ht) '.' h rfl

/-- The IPv4 pattern on `a.b.c.d` with digit strings `a`, `b`, `c`, `d`. -/
theorem ipv4_test_dotted (a b c d : List Char) (ha : isDigitStr a = true)
    (hb : isDigitStr b = true) (hc : isDigitStr c = true) (hd : isDigitStr d = true) :
    ipv4.test (a ++ '.' :: (b ++ '.' :: (c ++ '.' :: d))) = true ↔
      octetOk a = true ∧ octetOk b = true ∧ octetOk c = true ∧ octetOk d = true := by
  rw [test_iff_matches, ipv4_matches_iff]
  constructor
  · rintro ⟨a', b', c', d', ha', hb', hc', hd', h⟩
    have da := dot_not_mem_of_digits a (digits_of_isDigitStr a ha)
    have db := dot_not_mem_of_digits b (digits_of_isDigitStr b hb)
    have dc := dot_not_mem_of_digits c (digits_of_isDigitStr c hc)
    have da' := dot_not_mem_of_digits a' (matches_over _ _ octet_over_digits a' ha')
    have db' := dot_not_mem_of_digits b' (matches_over _ _ octet_over_digits b' hb')
    have dc' := dot_not_mem_of_digits c' (matches_over _ _ octet_over_digits c' hc')
    obtain ⟨rfl, h1⟩ := append_dot_inj _ _ _ _ da da' h
    obtain ⟨rfl, h2⟩ := append_dot_inj _ _ _ _ db db' h1
    obtain ⟨rfl, rfl⟩ := append_dot_inj _ _ _ _ dc dc' h2
    exact ⟨(octet_matches_iff _ ha).1 ha', (octet_matches_iff _ hb).1 hb',
      (octet_matches_iff _ hc).1 hc', (octet_matches_iff _ hd).1 hd'⟩
  · rintro ⟨oa, ob, oc, od⟩
    exact ⟨a, b, c, d, (octet_matches_iff _ ha).2 oa, (octet_matches_iff _ hb).2 ob,
      (octet_matches_iff _ hc).2 oc, (octet_matches_iff _ hd).2 od, rfl⟩

/-- C2: for every string `a.b.c.d` made of four non-empty strings of decimal digits,
`isValidIpAddress` is true exactly when each of the four denotes a number in `0..255`
written without a leading zero; `192.168.0.1` is accepted and `256.1.1.1` is rejected. -/
theorem isValidIpAddress_dotted (a b c d : List Char) (ha : isDigitStr a = true)
    (hb : isDigitStr b = true) (hc : isDigitStr c = true) (hd : isDigitStr d = true) :
    (isValidIpAddress (dotted a b c d) = true ↔
      octetOk a = true ∧ octetOk b = true ∧ octetOk c = true ∧ octetOk d = true) ∧
    isValidIpAddress "192.168.0.1" = true ∧ isValidIpAddress "256.1.1.1" = false := by
  refine ⟨?_, by decide, by decide⟩
  have h6 : ipv6.test (a ++ '.' :: (b ++ '.' :: (c ++ '.' :: d))) = false :=
    ipv6_test_dot _ (by simp)
  simp only [isValidIpAddress, dotted, h6, Bool.or_false]
  exact ipv4_test_dotted a b c d ha hb hc hd

/-- C2, instance: the string `10.0.255.7`. -/
theorem isValidIpAddress_dotted_witness :
    (isValidIpAddress (dotted ['1', '0'] ['0'] ['2', '5', '5'] ['7']) = true ↔
      octetOk ['1', '0'] = true ∧ octetOk ['0'] = true ∧ octetOk ['2', '5', '5'] = true ∧
        octetOk ['7'] = true) ∧
    isValidIpAddress "192.168.0.1" = true ∧ isValidIpAddress "256.1.1.1" = false :=
  isValidIpAddress_dotted ['1', '0'] ['0'] ['2', '5', '5'] ['7']
    (by decide) (by decide) (by decide) (by decide)

/-! ## Theorems: the orchestrator -/

/-- C1: in an authenticated state, when the trimmed search input is empty or rejected by
`isValidIpAddress` (as `not-an-ip` is), `handleSearch` issues no request, sets the
notification to the validation error and changes nothing else. -/
theorem handleSearch_invalid (og : Outcome GeoResponse) (oh : Outcome HistoryResponse)
    (s : App) (hauth : authenticated s = true)
    (hbad : jsTrim s.searchIp = "" ∨ isValidIpAddress (jsTrim s.searchIp) = false) :
    handleSearch og oh s =
        { s with toast := some { message := "Please enter a valid IPv4 or IPv6 address.",
                                 type := .error } } ∧
      (handleSearch og oh s).sent = s.sent ∧
      isValidIpAddress (jsTrim "not-an-ip") = false := by
  have ht : truthy s.token = true := by
    simp only [authenticated, Bool.and_eq_true] at hauth
    exact hauth.1
  have hcond : (jsTrim s.searchIp == "" || !isValidIpAddress (jsTrim s.searchIp)) = true := by
    rcases hbad with h | h
    · simp [h]
    · simp [h]
  have hmain : handleSearch og oh s =
      { s with toast := some { message := "Please enter a valid IPv4 or IPv6 address.",
                               type := .error } } := by
    simp only [handleSearch, ht, Bool.not_true, Bool.false_eq_true, if_false, hcond, if_true,
      showToast]
  refine ⟨hmain, ?_, by decide⟩
  rw [hmain]

/-- C1, instance: an authenticated state whose search input is `not-an-ip` between blanks. -/
theorem handleSearch_invalid_witness :
    handleSearch (.error .other) (.error .other) { demoApp with searchIp := "  not-an-ip " } =
        { { demoApp with searchIp := "  not-an-ip " } with
          toast := some { message := "Please enter a valid IPv4 or IPv6 address.",
                          type := .error } } ∧
      (handleSearch (.error .other) (.error .other)
        { demoApp with searchIp := "  not-an-ip " }).sent =
        ({ demoApp with searchIp := "  not-an-ip " } : App).sent ∧
      isValidIpAddress (jsTrim "not-an-ip") = false :=
  handleSearch_invalid (.error .other) (.error .other)
    { demoApp with searchIp := "  not-an-ip " } (by decide) (Or.inr (by decide))

/-- C4: in an authenticated state with a non-empty selection, a failing `DELETE /history`
leaves the selection as it was and shows an error notification; a successful one empties
the selection and re-fetches the history with a `GET /history` request carrying the token,
and when that reload succeeds the history is the fetched list and the notification is the
success "Selected history deleted.". -/
theorem handleBulkDeleteHistory_outcomes (s : App) (hauth : authenticated s = true)
    (hsel : s.selectedHistoryIds ≠ []) :
    (∀ (e : Thrown) (oh : Outcome HistoryResponse),
      (handleBulkDeleteHistory (.error e) oh s).selectedHistoryIds = s.selectedHistoryIds ∧
      (handleBulkDeleteHistory (.error e) oh s).toast =
        some { message := caughtMessage e "Unable to delete history.", type := .error } ∧
      (handleBulkDeleteHistory (.error e) oh s).sent =
        s.sent ++ [{ endpoint := .history, method := .DELETE,
                     body := some (.ids s.selectedHistoryIds), token := s.token }]) ∧
    (∀ oh : Outcome HistoryResponse,
      (handleBulkDeleteHistory (.ok ()) oh s).selectedHistoryIds = [] ∧
      (handleBulkDeleteHistory (.ok ()) oh s).sent =
        s.sent ++ [{ endpoint := .history, method := .DELETE,
                     body := some (.ids s.selectedHistoryIds), token := s.token },
                   { endpoint := .history, method := .GET, body := none,
                     token := s.token }]) ∧
    (∀ r : HistoryResponse,
      (handleBulkDeleteHistory (.ok ()) (.ok r) s).history = r.history ∧
      (handleBulkDeleteHistory (.ok ()) (.ok r) s).toast =
        some { message := "Selected history deleted.", type := .success }) := by
  have ht : truthy s.token = true := by
    simp only [authenticated, Bool.and_eq_true] at hauth
    exact hauth.1
  have hcond : (!truthy s.token || s.selectedHistoryIds.length == 0) = false := by
    have : s.selectedHistoryIds.length ≠ 0 := fun h => hsel (List.length_eq_zero.1 h)
    simp [ht, this]
  refine ⟨?_, ?_, ?_⟩
  · intro e oh
    simp [handleBulkDeleteHistory, hcond, showToast, send]
  · intro oh
    cases oh with
    | error e =>
      simp [handleBulkDeleteHistory, hcond, showToast, send, loadHistory, historyRequest]
    | ok r =>
      simp [handleBulkDeleteHistory, hcond, showToast, send, loadHistory, historyRequest]
  · intro r
    simp [handleBulkDeleteHistory, hcond, showToast, send, loadHistory]

/-- C4, instance: an authenticated state with one selected entry. -/
theorem handleBulkDeleteHistory_outcomes_witness :
    (∀ (e : Thrown) (oh : Outcome HistoryResponse),
      (handleBulkDeleteHistory (.error e) oh selectedApp).selectedHistoryIds =
        selectedApp.selectedHistoryIds ∧
      (handleBulkDeleteHistory (.error e) oh selectedApp).toast =
        some { message := caughtMessage e "Unable to delete history.", type := .error } ∧
      (handleBulkDeleteHistory (.error e) oh selectedApp).sent =
        selectedApp.sent ++ [{ endpoint := .history, method := .DELETE,
                               body := some (.ids selectedApp.selectedHistoryIds),
                               token := selectedApp.token }]) ∧
    (∀ oh : Outcome HistoryResponse,
      (handleBulkDeleteHistory (.ok ()) oh selectedApp).selectedHistoryIds = [] ∧
      (handleBulkDeleteHistory (.ok ()) oh selectedApp).sent =
        selectedApp.sent ++ [{ endpoint := .history, method := .DELETE,
                               body := some (.ids selectedApp.selectedHistoryIds),
                               token := selectedApp.token },
                             { endpoint := .history, method := .GET, body := none,
                               token := selectedApp.token }]) ∧
    (∀ r : HistoryResponse,
      (handleBulkDeleteHistory (.ok ()) (.ok r) selectedApp).history = r.history ∧
      (handleBulkDeleteHistory (.ok ()) (.ok r) selectedApp).toast =
        some { message := "Selected history deleted.", type := .success }) :=
  handleBulkDeleteHistory_outcomes selectedApp (by decide) (by decide)

/-- C5: in an authenticated state, whether `POST /logout` resolves or rejects,
`handleLogout` ends with the stored token removed and with token, user and geo null,
history and selection empty, the search input blank and no notification. -/
theorem handleLogout_clears (o : Outcome Unit) (s : App) (hauth : authenticated s = true) :
    (handleLogout o s).stored = none ∧ (handleLogout o s).token = none ∧
      (handleLogout o s).user = none ∧ (handleLogout o s).geo = none ∧
      (handleLogout o s).history = [] ∧ (handleLogout o s).selectedHistoryIds = [] ∧
      (handleLogout o s).searchIp = "" ∧ (handleLogout o s).toast = none ∧
      (handleLogout o s).sent =
        s.sent ++ [{ endpoint := .logout, method := .POST, body := none, token := s.token }] := by
  have ht : truthy s.token = true := by
    simp only [authenticated, Bool.and_eq_true] at hauth
    exact hauth.1
  simp [handleLogout, ht, send]

/-- C5, instance: an authenticated state and a rejected `/logout` request. -/
theorem handleLogout_clears_witness :
    (handleLogout (.error (.error "Request failed.")) demoApp).stored = none ∧
      (handleLogout (.error (.error "Request failed.")) demoApp).token = none ∧
      (handleLogout (.error (.error "Request failed.")) demoApp).user = none ∧
      (handleLogout (.error (.error "Request failed.")) demoApp).geo = none ∧
      (handleLogout (.error (.error "Request failed.")) demoApp).history = [] ∧
      (handleLogout (.error (.error "Request failed.")) demoApp).selectedHistoryIds = [] ∧
      (handleLogout (.error (.error "Request failed.")) demoApp).searchIp = "" ∧
      (handleLogout (.error (.error "Request failed.")) demoApp).toast = none ∧
      (handleLogout (.error (.error "Request failed.")) demoApp).sent =
        demoApp.sent ++
          [{ endpoint := .logout, method := .POST, body := none, token := demoApp.token }] :=
  handleLogout_clears (.error (.error "Request failed.")) demoApp (by decide)

/-- C6, counterexample: the login attempt in which `/login` succeeds and the geolocation load then fails: the
error is caught and shown, yet the token is in the state and in storage. -/
theorem handleLogin_late_failure :
    loginApp.token = none ∧ loginApp.user = none ∧ loginApp.stored = none ∧
    (handleLogin (.ok { token := "tok", user := { email := "a@b.c" } })
        (.error (.error "Request failed.")) (.ok { history := [] }) true loginApp).toast =
      some { message := "Request failed.", type := .error } ∧
    (handleLogin (.ok { token := "tok", user := { email := "a@b.c" } })
        (.error (.error "Request failed.")) (.ok { history := [] }) true loginApp).token =
      some "tok" ∧
    (handleLogin (.ok { token := "tok", user := { email := "a@b.c" } })
        (.error (.error "Request failed.")) (.ok { history := [] }) true loginApp).user =
      some { email := "a@b.c" } ∧
    (handleLogin (.ok { token := "tok", user := { email := "a@b.c" } })
        (.error (.error "Request failed.")) (.ok { history := [] }) true loginApp).stored =
      some "tok" := by
  decide

/-- C6 (amended): for every login attempt started from the unauthenticated state that ends
in failure, the error notification carries the message of the failure that was caught and
`isBusy` is false at the end. When the failure is that of `POST /login`, token and user are
still null and nothing has been written to storage. When `/login` succeeds and the
geolocation load or the history load fails, the token returned by `/login` has been stored
and token and user are the ones returned. -/
theorem handleLogin_failure (s : App) (htoken : s.token = none) (huser : s.user = none) :
    (∀ (e : Thrown) (og : Outcome GeoResponse) (oh : Outcome HistoryResponse) (geoFirst : Bool),
      (handleLogin (.error e) og oh geoFirst s).toast =
        some { message := caughtMessage e "Login failed.", type := .error } ∧
      (handleLogin (.error e) og oh geoFirst s).isBusy = false ∧
      (handleLogin (.error e) og oh geoFirst s).token = none ∧
      (handleLogin (.error e) og oh geoFirst s).user = none ∧
      (handleLogin (.error e) og oh geoFirst s).stored = s.stored ∧
      (handleLogin (.error e) og oh geoFirst s).sent =
        s.sent ++ [{ endpoint := .login, method := .POST,
                     body := some (.credentials s.email s.password), token := none }]) ∧
    (∀ (r : LoginResponse) (eg : Thrown) (h : HistoryResponse) (geoFirst : Bool),
      (handleLogin (.ok r) (.error eg) (.ok h) geoFirst s).toast =
        some { message := caughtMessage eg "Login failed.", type := .error } ∧
      (handleLogin (.ok r) (.error eg) (.ok h) geoFirst s).isBusy = false ∧
      (handleLogin (.ok r) (.error eg) (.ok h) geoFirst s).token = some r.token ∧
      (handleLogin (.ok r) (.error eg) (.ok h) geoFirst s).user = some r.user ∧
      (handleLogin (.ok r) (.error eg) (.ok h) geoFirst s).stored = some r.token) ∧
    (∀ (r : LoginResponse) (g : GeoResponse) (eh : Thrown) (geoFirst : Bool),
      (handleLogin (.ok r) (.ok g) (.error eh) geoFirst s).toast =
        some { message := caughtMessage eh "Login failed.", type := .error } ∧
      (handleLogin (.ok r) (.ok g) (.error eh) geoFirst s).isBusy = false ∧
      (handleLogin (.ok r) (.ok g) (.error eh) geoFirst s).token = some r.token ∧
      (handleLogin (.ok r) (.ok g) (.error eh) geoFirst s).user = some r.user ∧
      (handleLogin (.ok r) (.ok g) (.error eh) geoFirst s).stored = some r.token) ∧
    (∀ (r : LoginResponse) (eg eh : Thrown) (geoFirst : Bool),
      (handleLogin (.ok r) (.error eg) (.error eh) geoFirst s).toast =
        some { message := caughtMessage (if geoFirst then eg else eh) "Login failed.",
               type := .error } ∧
      (handleLogin (.ok r) (.error eg) (.error eh) geoFirst s).isBusy = false ∧
      (handleLogin (.ok r) (.error eg) (.error eh) geoFirst s).token = some r.token ∧
      (handleLogin (.ok r) (.error eg) (.error eh) geoFirst s).user = some r.user ∧
      (handleLogin (.ok r) (.error eg) (.error eh) geoFirst s).stored = some r.token) := by
  refine ⟨?_, ?_, ?_, ?_⟩
  · intro e og oh geoFirst
    simp [handleLogin, showToast, send, htoken, huser]
  · intro r eg h geoFirst
    simp [handleLogin, loadGeoAndHistory, showToast, send]
  · intro r g eh geoFirst
    simp [handleLogin, loadGeoAndHistory, showToast, send]
  · intro r eg eh geoFirst
    simp [handleLogin, loadGeoAndHistory, showToast, send]

/-- C6, instance: the login view. -/
theorem handleLogin_failure_witness :
    (∀ (e : Thrown) (og : Outcome GeoResponse) (oh : Outcome HistoryResponse) (geoFirst : Bool),
      (handleLogin (.error e) og oh geoFirst loginApp).toast =
        some { message := caughtMessage e "Login failed.", type := .error } ∧
      (handleLogin (.error e) og oh geoFirst loginApp).isBusy = false ∧
      (handleLogin (.error e) og oh geoFirst loginApp).token = none ∧
      (handleLogin (.error e) og oh geoFirst loginApp).user = none ∧
      (handleLogin (.error e) og oh geoFirst loginApp).stored = loginApp.stored ∧
      (handleLogin (.error e) og oh geoFirst loginApp).sent =
        loginApp.sent ++ [{ endpoint := .login, method := .POST,
                            body := some (.credentials loginApp.email loginApp.password),
                            token := none }]) ∧
    (∀ (r : LoginResponse) (eg : Thrown) (h : HistoryResponse) (geoFirst : Bool),
      (handleLogin (.ok r) (.error eg) (.ok h) geoFirst loginApp).toast =
        some { message := caughtMessage eg "Login failed.", type := .error } ∧
      (handleLogin (.ok r) (.error eg) (.ok h) geoFirst loginApp).isBusy = false ∧
      (handleLogin (.ok r) (.error eg) (.ok h) geoFirst loginApp).token = some r.token ∧
      (handleLogin (.ok r) (.error eg) (.ok h) geoFirst loginApp).user = some r.user ∧
      (handleLogin (.ok r) (.error eg) (.ok h) geoFirst loginApp).stored = some r.token) ∧
    (∀ (r : LoginResponse) (g : GeoResponse) (eh : Thrown) (geoFirst : Bool),
      (handleLogin (.ok r) (.ok g) (.error eh) geoFirst loginApp).toast =
        some { message := caughtMessage eh "Login failed.", type := .error } ∧
      (handleLogin (.ok r) (.ok g) (.error eh) geoFirst loginApp).isBusy = false ∧
      (handleLogin (.ok r) (.ok g) (.error eh) geoFirst loginApp).token = some r.token ∧
      (handleLogin (.ok r) (.ok g) (.error eh) geoFirst loginApp).user = some r.user ∧
      (handleLogin (.ok r) (.ok g) (.error eh) geoFirst loginApp).stored = some r.token) ∧
    (∀ (r : LoginResponse) (eg eh : Thrown) (geoFirst : Bool),
      (handleLogin (.ok r) (.error eg) (.error eh) geoFirst loginApp).toast =
        some { message := caughtMessage (if geoFirst then eg else eh) "Login failed.",
               type := .error } ∧
      (handleLogin (.ok r) (.error eg) (.error eh) geoFirst loginApp).isBusy = false ∧
      (handleLogin (.ok r) (.error eg) (.error eh) geoFirst loginApp).token = some r.token ∧
      (handleLogin (.ok r) (.error eg) (.error eh) geoFirst loginApp).user = some r.user ∧
      (handleLogin (.ok r) (.error eg) (.error eh) geoFirst loginApp).stored = some r.token) :=
  handleLogin_failure loginApp rfl rfl

/-- C7 at its failing input: the stored token passes `/me`, the geolocation load then
fails. The run removes the token from storage and surfaces nothing, but leaves `token` and
`user` set, so the dashboard stays rendered. -/
theorem bootstrap_late_failure :
    (bootstrap (.ok { user := { email := "a@b.c" } }) (.error (.error "Request failed."))
        (.ok { history := [] }) true (initialApp (some "tok"))).stored = none ∧
    (bootstrap (.ok { user := { email := "a@b.c" } }) (.error (.error "Request failed."))
        (.ok { history := [] }) true (initialApp (some "tok"))).isBooting = false ∧
    (bootstrap (.ok { user := { email := "a@b.c" } }) (.error (.error "Request failed."))
        (.ok { history := [] }) true (initialApp (some "tok"))).toast = none ∧
    (bootstrap (.ok { user := { email := "a@b.c" } }) (.error (.error "Request failed."))
        (.ok { history := [] }) true (initialApp (some "tok"))).token = some "tok" ∧
    (bootstrap (.ok { user := { email := "a@b.c" } }) (.error (.error "Request failed."))
        (.ok { history := [] }) true (initialApp (some "tok"))).user =
      some { email := "a@b.c" } ∧
    authenticated (bootstrap (.ok { user := { email := "a@b.c" } })
        (.error (.error "Request failed.")) (.ok { history := [] }) true
        (initialApp (some "tok"))) = true := by
  decide

/-- C8, counterexample: with `isBusy` set, the handlers invoked directly still send their
request and change the state. -/
theorem handlers_ignore_isBusy :
    busyLoginApp.isBusy = true ∧ busyLoginApp.sent = [] ∧
    (handleLogin (.error (.error "Invalid credentials.")) (.error .other) (.error .other) true
        busyLoginApp).sent =
      [{ endpoint := .login, method := .POST,
         body := some (.credentials "exam.user@example.com" "Password123!"), token := none }] ∧
    (handleLogin (.error (.error "Invalid credentials.")) (.error .other) (.error .other) true
        busyLoginApp).isBusy = false ∧
    busyDashboardApp.isBusy = true ∧ busyDashboardApp.sent = [] ∧
    (handleBulkDeleteHistory (.ok ()) (.ok { history := [] }) busyDashboardApp).sent =
      [{ endpoint := .history, method := .DELETE, body := some (.ids [7]),
         token := some "tok" },
       { endpoint := .history, method := .GET, body := none, token := some "tok" }] ∧
    (handleBulkDeleteHistory (.ok ()) (.ok { history := [] })
        busyDashboardApp).selectedHistoryIds = [] := by
  decide

/-- C8 (amended): in every state with `isBusy` set, the login submit button and the
"Delete Selected" button are rendered disabled. The handlers do not test `isBusy`:
`handleLogin` sends `POST /login` whatever the state, and `handleBulkDeleteHistory` issues
no request and leaves the state unchanged exactly when the token is absent or the selection
is empty, and sends `DELETE /history` otherwise. -/
theorem busy_gate (l d : App) (hl : l.isBusy = true) (hd : d.isBusy = true) :
    loginSubmitDisabled l = true ∧ deleteSelectedDisabled d = true ∧
    (∀ (e : Thrown) (og : Outcome GeoResponse) (oh : Outcome HistoryResponse) (geoFirst : Bool),
      (handleLogin (.error e) og oh geoFirst l).sent =
        l.sent ++ [{ endpoint := .login, method := .POST,
                     body := some (.credentials l.email l.password), token := none }]) ∧
    (∀ (r : LoginResponse) (og : Outcome GeoResponse) (oh : Outcome HistoryResponse)
        (geoFirst : Bool),
      (handleLogin (.ok r) og oh geoFirst l).sent =
        l.sent ++ [{ endpoint := .login, method := .POST,
                     body := some (.credentials l.email l.password), token := none },
                   { endpoint := .geo none, method := .GET, body := none,
                     token := some r.token },
                   { endpoint := .history, method := .GET, body := none,
                     token := some r.token }]) ∧
    (∀ (od : Outcome Unit) (oh : Outcome HistoryResponse),
      truthy d.token = false ∨ d.selectedHistoryIds = [] →
        handleBulkDeleteHistory od oh d = d) ∧
    (∀ (e : Thrown) (oh : Outcome HistoryResponse),
      truthy d.token = true → d.selectedHistoryIds ≠ [] →
        (handleBulkDeleteHistory (.error e) oh d).sent =
          d.sent ++ [{ endpoint := .history, method := .DELETE,
                       body := some (.ids d.selectedHistoryIds), token := d.token }]) ∧
    (∀ oh : Outcome HistoryResponse,
      truthy d.token = true → d.selectedHistoryIds ≠ [] →
        (handleBulkDeleteHistory (.ok ()) oh d).sent =
          d.sent ++ [{ endpoint := .history, method := .DELETE,
                       body := some (.ids d.selectedHistoryIds), token := d.token },
                     { endpoint := .history, method := .GET, body := none,
                       token := d.token }]) := by
  have hguard : ∀ (ht : truthy d.token = true) (hs : d.selectedHistoryIds ≠ []),
      (!truthy d.token || d.selectedHistoryIds.length == 0) = false := by
    intro ht hs
    have : d.selectedHistoryIds.length ≠ 0 := fun h => hs (List.length_eq_zero.1 h)
    simp [ht, this]
  refine ⟨by simp [loginSubmitDisabled, hl], by simp [deleteSelectedDisabled, hd],
    ?_, ?_, ?_, ?_, ?_⟩
  · intro e og oh geoFirst
    simp [handleLogin, showToast, send]
  · intro r og oh geoFirst
    cases og <;> cases oh <;>
      simp [handleLogin, loadGeoAndHistory, showToast, send, geoRequest, historyRequest, truthy]
  · intro od oh h
    have hcond : (!truthy d.token || d.selectedHistoryIds.length == 0) = true := by
      rcases h with h | h
      · simp [h]
      · simp [h]
    simp only [handleBulkDeleteHistory, hcond, if_true]
  · intro e oh ht hs
    simp [handleBulkDeleteHistory, hguard ht hs, showToast, send]
  · intro oh ht hs
    cases oh <;>
      simp [handleBulkDeleteHistory, hguard ht hs, showToast, send, loadHistory, historyRequest]

/-- C8, instance: a busy state of the login view and a busy state of the dashboard with
one selected entry. -/
theorem busy_gate_witness :
    loginSubmitDisabled busyLoginApp = true ∧ deleteSelectedDisabled busyDashboardApp = true ∧
    (∀ (e : Thrown) (og : Outcome GeoResponse) (oh : Outcome HistoryResponse) (geoFirst : Bool),
      (handleLogin (.error e) og oh geoFirst busyLoginApp).sent =
        busyLoginApp.sent ++ [{ endpoint := .login, method := .POST,
                                body := some (.credentials busyLoginApp.email
                                  busyLoginApp.password), token := none }]) ∧
    (∀ (r : LoginResponse) (og : Outcome GeoResponse) (oh : Outcome HistoryResponse)
        (geoFirst : Bool),
      (handleLogin (.ok r) og oh geoFirst busyLoginApp).sent =
        busyLoginApp.sent ++ [{ endpoint := .login, method := .POST,
                                body := some (.credentials busyLoginApp.email
                                  busyLoginApp.password), token := none },
                              { endpoint := .geo none, method := .GET, body := none,
                                token := some r.token },
                              { endpoint := .history, method := .GET, body := none,
                                token := some r.token }]) ∧
    (∀ (od : Outcome Unit) (oh : Outcome HistoryResponse),
      truthy busyDashboardApp.token = false ∨ busyDashboardApp.selectedHistoryIds = [] →
        handleBulkDeleteHistory od oh busyDashboardApp = busyDashboardApp) ∧
    (∀ (e : Thrown) (oh : Outcome HistoryResponse),
      truthy busyDashboardApp.token = true → busyDashboardApp.selectedHistoryIds ≠ [] →
        (handleBulkDeleteHistory (.error e) oh busyDashboardApp).sent =
          busyDashboardApp.sent ++
            [{ endpoint := .history, method := .DELETE,
               body := some (.ids busyDashboardApp.selectedHistoryIds),
               token := busyDashboardApp.token }]) ∧
    (∀ oh : Outcome HistoryResponse,
      truthy busyDashboardApp.token = true → busyDashboardApp.selectedHistoryIds ≠ [] →
        (handleBulkDeleteHistory (.ok ()) oh busyDashboardApp).sent =
          busyDashboardApp.sent ++
            [{ endpoint := .history, method := .DELETE,
               body := some (.ids busyDashboardApp.selectedHistoryIds),
               token := busyDashboardApp.token },
             { endpoint := .history, method := .GET, body := none,
               token := busyDashboardApp.token }]) :=
  busy_gate busyLoginApp busyDashboardApp rfl rfl

theorem toggleIds_of_mem (id : Nat) (current : List Nat) (h : id ∈ current) :
    toggleIds id current = current.filter (fun selectedId => selectedId != id) := by
  have hc : current.contains id = true := List.elem_iff.2 h
  simp only [toggleIds, hc, if_true]

theorem toggleIds_of_not_mem (id : Nat) (current : List Nat) (h : id ∉ current) :
    toggleIds id current = current ++ [id] := by
  have hc : current.contains id = false := by
    rw [Bool.eq_false_iff]
    exact fun hc => h (List.elem_iff.1 hc)
  simp only [toggleIds, hc, Bool.false_eq_true, if_false]

theorem mem_toggleIds (id j : Nat) (current : List Nat) :
    j ∈ toggleIds id current ↔ (j ∈ current ∧ j ≠ id) ∨ (j = id ∧ id ∉ current) := by
  by_cases h : id ∈ current
  · rw [toggleIds_of_mem id current h]
    simp only [List.mem_filter, bne_iff_ne, ne_eq, h, not_true_eq_false, and_false, or_false]
  · rw [toggleIds_of_not_mem id current h]
    simp only [List.mem_append, List.mem_singleton, h, not_false_eq_true, and_true]
    constructor
    · rintro (hj | hj)
      · exact Or.inl ⟨hj, fun e => h (e ▸ hj)⟩
      · exact Or.inr hj
    · rintro (⟨hj, -⟩ | hj)
      · exact Or.inl hj
      · exact Or.inr hj

/-- C10: `toggleHistorySelection(id)` flips the membership of `id` and of no other id, so
toggling the same id twice gives a selection with the same members, and a selection
without duplicates stays without duplicates. -/
theorem toggleHistorySelection_flips (id : Nat) (s : App) :
    (id ∈ (toggleHistorySelection id s).selectedHistoryIds ↔ id ∉ s.selectedHistoryIds) ∧
    (∀ j, j ≠ id →
      (j ∈ (toggleHistorySelection id s).selectedHistoryIds ↔ j ∈ s.selectedHistoryIds)) ∧
    (∀ j, j ∈ (toggleHistorySelection id (toggleHistorySelection id s)).selectedHistoryIds ↔
      j ∈ s.selectedHistoryIds) ∧
    (s.selectedHistoryIds.Nodup → (toggleHistorySelection id s).selectedHistoryIds.Nodup) := by
  simp only [toggleHistorySelection]
  refine ⟨?_, ?_, ?_, ?_⟩
  · rw [mem_toggleIds]
    simp
  · intro j hj
    rw [mem_toggleIds]
    simp [hj]
  · intro j
    rw [mem_toggleIds, mem_toggleIds, mem_toggleIds]
    by_cases hj : j = id
    · subst hj
      simp
    · simp [hj]
  · intro hnd
    by_cases h : id ∈ s.selectedHistoryIds
    · rw [toggleIds_of_mem id _ h]
      exact hnd.filter _
    · rw [toggleIds_of_not_mem id _ h]
      exact List.Nodup.append hnd (List.nodup_singleton id) (by simpa using h)

/-- C10, instance: the id 7 and a state whose selection is `[7]`. -/
theorem toggleHistorySelection_flips_witness :
    (7 ∈ (toggleHistorySelection 7 busyDashboardApp).selectedHistoryIds ↔
      7 ∉ busyDashboardApp.selectedHistoryIds) ∧
    (∀ j, j ≠ 7 →
      (j ∈ (toggleHistorySelection 7 busyDashboardApp).selectedHistoryIds ↔
        j ∈ busyDashboardApp.selectedHistoryIds)) ∧
    (∀ j, j ∈ (toggleHistorySelection 7
        (toggleHistorySelection 7 busyDashboardApp)).selectedHistoryIds ↔
      j ∈ busyDashboardApp.selectedHistoryIds) ∧
    (busyDashboardApp.selectedHistoryIds.Nodup →
      (toggleHistorySelection 7 busyDashboardApp).selectedHistoryIds.Nodup) :=
  toggleHistorySelection_flips 7 busyDashboardApp

/-- C3 at its failing inputs: `2001:db8::1` and `::2` are compressed IPv6 addresses in the
specification's syntax, and `isValidIpAddress` rejects both; `::1` and `2001:db8::` are
accepted. -/
theorem isValidIpAddress_rejects_compressed :
    specIPv6Compressed "2001:db8::1".data = true ∧ isValidIpAddress "2001:db8::1" = false ∧
    specIPv6Compressed "::2".data = true ∧ isValidIpAddress "::2" = false ∧
    isValidIpAddress "::1" = true ∧ isValidIpAddress "2001:db8::" = true := by
  decide

/-- C9 at its failing input: `isValidIpAddress` accepts `:1:`, which is neither an IPv4
address nor a full or compressed IPv6 address; the empty string is rejected. -/
theorem isValidIpAddress_accepts_malformed :
    isValidIpAddress ":1:" = true ∧ specIPv4 ":1:".data = false ∧
    specIPv6Full ":1:".data = false ∧ specIPv6Compressed ":1:".data = false ∧
    isValidIpAddress "" = false := by
  decide

end GeoDashboard
